import Mathlib

/-!
# Cell renderer: material library and forward-pass ordering

A shallow embedding of `cell/renderer/MaterialLibrary.cpp` (the material
template table, the three `Create*Material` entry points and the constructor
that fills the table) together with the forward-pass ordering contract of
`Renderer::RenderPushedCommands` declared in `cell/renderer/renderer.h`.

Conventions of the embedding

* A raw pointer is a natural number, `nullptr` is `0`.
* `Material` objects live in a heap, a list of objects: the object at address
  `p` is the element at index `p - 1`. `new` appends one object and returns its
  address, so it never returns `nullptr` nor the address of a live object.
* Dereferencing an address outside the heap is undefined behaviour in C++; the
  operations report a `Fault` there.
* `std::map` is an association list with unique keys, `operator[]=` is
  `mapAssign`, `find` is `mapFind`.
* Shader and texture objects, the resource loader, the string hash `SID` and
  logging are external: the loader and the hash are parameters (`Env`), logging
  and the uniform uploads done on shader objects have no effect on the library
  state and are left out.
-/

namespace Cell

/-- A raw C++ pointer, as an address; address `0` is the null pointer. -/
abbrev Ptr := Nat

/-- The null pointer. -/
def nullptr : Ptr := 0

/-- The enum `MaterialType` assigned to `Material::Type` in `MaterialLibrary.cpp`. -/
inductive MaterialType where
  | MATERIAL_DEFAULT
  | MATERIAL_CUSTOM
  | MATERIAL_POST_PROCESS
deriving DecidableEq, Repr

/-- One entry of a material's texture-slot table: the bound texture and its bind unit. -/
structure UniformValueSampler where
  Texture : Ptr
  Unit : Nat
deriving DecidableEq, Repr

/-- Modelled from the spec: the class `Material` of `shading/material.h`, which is
not part of the sources at hand. An instance carries a shader reference, a `Kind`
(the field `Type` of the C++ class), a texture-slot table (slot name to texture and
bind unit) and the render-state flags `Blend`, `Cull` and `DepthTest`. -/
structure Material where
  m_Shader : Ptr
  Kind : MaterialType
  m_SamplerUniforms : List (String × UniformValueSampler)
  Blend : Bool
  Cull : Bool
  DepthTest : Bool
deriving DecidableEq, Repr

/-- What the library takes from its collaborators: the string hash behind the macro
`SID`, the resource loader, and the state a freshly constructed `Material` starts
with (its `Type` and render-state flags), none of which is fixed by the sources at
hand. `LoadShader` takes the name, the two paths and the list of defines;
`LoadTexture` takes the name and the path (the GL target and format some calls
pass are left out). -/
structure Env where
  SID : String → Nat
  LoadShader : String → String → String → List String → Ptr
  LoadTexture : String → String → Ptr
  ctorKind : MaterialType
  ctorBlend : Bool
  ctorCull : Bool
  ctorDepthTest : Bool

/-- Assignment `m[k] = v` on a `std::map`: overwrite the entry of `k`, or add one. -/
def mapAssign {κ ν : Type} [DecidableEq κ] : List (κ × ν) → κ → ν → List (κ × ν)
  | [], k, v => [(k, v)]
  | (k', v') :: rest, k, v =>
    if k' = k then (k', v) :: rest else (k', v') :: mapAssign rest k v

/-- The lookup `m.find(k)` on a `std::map`: the value stored under `k`, if any. -/
def mapFind {κ ν : Type} [DecidableEq κ] : List (κ × ν) → κ → Option ν
  | [], _ => none
  | (k', v') :: rest, k => if k' = k then some v' else mapFind rest k

/-- Modelled from the spec: the constructor `Material(Shader*)`, absent from the
sources at hand. It wraps the caller's shader and starts with no texture
bindings; the initial `Type` and flags come from `Env`. -/
def Material.ctor (env : Env) (shader : Ptr) : Material :=
  { m_Shader := shader
    Kind := env.ctorKind
    m_SamplerUniforms := []
    Blend := env.ctorBlend
    Cull := env.ctorCull
    DepthTest := env.ctorDepthTest }

/-- Modelled from the spec: `Material::Copy`, absent from the sources at hand. It
deep-copies the shader reference, the `Kind`, the texture-slot table and the state
flags into a new value. -/
def Material.Copy (m : Material) : Material :=
  { m_Shader := m.m_Shader
    Kind := m.Kind
    m_SamplerUniforms := m.m_SamplerUniforms
    Blend := m.Blend
    Cull := m.Cull
    DepthTest := m.DepthTest }

/-- Modelled from the spec: `Material::SetTexture(name, value, unit)`, absent from
the sources at hand. It binds texture `value` at bind unit `unit` under slot
`name` in the texture-slot table of this material. -/
def Material.SetTexture (m : Material) (name : String) (value : Ptr) (unit : Nat) : Material :=
  { m with m_SamplerUniforms := mapAssign m.m_SamplerUniforms name ⟨value, unit⟩ }

/-- The object at address `p`, none for the null pointer or an address never allocated. -/
def heapDeref (h : List Material) (p : Ptr) : Option Material :=
  if p = 0 then none else h.get? (p - 1)

/-- The expression `new Material(m)`: a fresh address and the heap holding the new object. -/
def heapNew (h : List Material) (m : Material) : Ptr × List Material :=
  (h.length + 1, h ++ [m])

/-- The one way an operation of the library can go wrong: an access through the null
pointer or through an address that holds no object. -/
inductive Fault where
  | invalidPointer
deriving DecidableEq, Repr

/-- A write through a pointer, `p->... = ...`: the object at `p` becomes `f` of it. -/
def heapUpdate (h : List Material) (p : Ptr) (f : Material → Material) :
    Except Fault (List Material) :=
  match heapDeref h p with
  | some m => .ok (h.set (p - 1) (f m))
  | none => .error .invalidPointer

/-- The state of a `MaterialLibrary`: the heap of the materials it allocated, the
template table `m_DefaultMaterials` (hash of the name to template), the owned
collection `m_Materials`, and the internal materials and shaders. -/
structure MaterialLibrary where
  heap : List Material
  m_DefaultMaterials : List (Nat × Ptr)
  m_Materials : List Ptr
  defaultBlitMaterial : Ptr
  postProcessingMaterial : Ptr
  debugLightMaterial : Ptr
  deferredAmbientShader : Ptr
  deferredIrradianceShader : Ptr
  deferredDirectionalShader : Ptr
  deferredPointShader : Ptr
  dirShadowShader : Ptr
deriving DecidableEq, Repr

/-- The members of a library before the constructor body runs. -/
def MaterialLibrary.empty : MaterialLibrary :=
  { heap := []
    m_DefaultMaterials := []
    m_Materials := []
    defaultBlitMaterial := nullptr
    postProcessingMaterial := nullptr
    debugLightMaterial := nullptr
    deferredAmbientShader := nullptr
    deferredIrradianceShader := nullptr
    deferredDirectionalShader := nullptr
    deferredPointShader := nullptr
    dirShadowShader := nullptr }

/-- `MaterialLibrary::CreateMaterial(base)`: the result pointer and the new state.
An unknown template gives the null pointer (the log message is not modelled). -/
def MaterialLibrary.CreateMaterial (env : Env) (lib : MaterialLibrary) (base : String) :
    Except Fault (Ptr × MaterialLibrary) :=
  match mapFind lib.m_DefaultMaterials (env.SID base) with
  | some found =>
    match heapDeref lib.heap found with
    | some tmpl =>
      let copy := tmpl.Copy
      let (mat, heap1) := heapNew lib.heap copy
      .ok (mat, { lib with heap := heap1, m_Materials := lib.m_Materials ++ [mat] })
    | none => .error .invalidPointer
  | none => .ok (nullptr, lib)

/-- `MaterialLibrary::CreateCustomMaterial(shader)`. -/
def MaterialLibrary.CreateCustomMaterial (env : Env) (lib : MaterialLibrary) (shader : Ptr) :
    Except Fault (Ptr × MaterialLibrary) := do
  let (mat, heap1) := heapNew lib.heap (Material.ctor env shader)
  let heap2 ← heapUpdate heap1 mat (fun m => { m with Kind := .MATERIAL_CUSTOM })
  pure (mat, { lib with heap := heap2, m_Materials := lib.m_Materials ++ [mat] })

/-- `MaterialLibrary::CreatePostProcessingMaterial(shader)`. -/
def MaterialLibrary.CreatePostProcessingMaterial (env : Env) (lib : MaterialLibrary)
    (shader : Ptr) : Except Fault (Ptr × MaterialLibrary) := do
  let (mat, heap1) := heapNew lib.heap (Material.ctor env shader)
  let heap2 ← heapUpdate heap1 mat (fun m => { m with Kind := .MATERIAL_POST_PROCESS })
  pure (mat, { lib with heap := heap2, m_Materials := lib.m_Materials ++ [mat] })

/-- `MaterialLibrary::generateDefaultMaterials()`: the four templates. -/
def MaterialLibrary.generateDefaultMaterials (env : Env) (lib : MaterialLibrary) :
    Except Fault MaterialLibrary := do
  -- default render material (deferred path)
  let defaultShader := env.LoadShader "default" "shaders/deferred/g_buffer.vs"
    "shaders/deferred/g_buffer.fs" []
  let (defaultMat, h) := heapNew lib.heap (Material.ctor env defaultShader)
  let h ← heapUpdate h defaultMat (fun m => { m with Kind := .MATERIAL_DEFAULT })
  let h ← heapUpdate h defaultMat (fun m =>
    m.SetTexture "TexAlbedo" (env.LoadTexture "default albedo" "textures/checkerboard.png") 3)
  let h ← heapUpdate h defaultMat (fun m =>
    m.SetTexture "TexNormal" (env.LoadTexture "default normal" "textures/norm.png") 4)
  let h ← heapUpdate h defaultMat (fun m =>
    m.SetTexture "TexMetallic" (env.LoadTexture "default metallic" "textures/black.png") 5)
  let h ← heapUpdate h defaultMat (fun m =>
    m.SetTexture "TexRoughness" (env.LoadTexture "default roughness" "textures/checkerboard.png") 6)
  let h ← heapUpdate h defaultMat (fun m =>
    m.SetTexture "TexAO" (env.LoadTexture "default ao" "textures/white.png") 7)
  let tbl := mapAssign lib.m_DefaultMaterials (env.SID "default") defaultMat
  -- glass material
  let glassShader := env.LoadShader "glass" "shaders/forward_render.vs"
    "shaders/forward_render.fs" ["ALPHA_GLASS"]
  let (glassMat, h) := heapNew h (Material.ctor env glassShader)
  let h ← heapUpdate h glassMat (fun m => { m with Kind := .MATERIAL_CUSTOM })
  let h ← heapUpdate h glassMat (fun m =>
    m.SetTexture "TexAlbedo" (env.LoadTexture "glass albedo" "textures/glass.png") 3)
  let h ← heapUpdate h glassMat (fun m =>
    m.SetTexture "TexNormal" (env.LoadTexture "glass normal" "textures/pbr/plastic/normal.png") 4)
  let h ← heapUpdate h glassMat (fun m =>
    m.SetTexture "TexMetallic"
      (env.LoadTexture "glass metallic" "textures/pbr/plastic/metallic.png") 5)
  let h ← heapUpdate h glassMat (fun m =>
    m.SetTexture "TexRoughness"
      (env.LoadTexture "glass roughness" "textures/pbr/plastic/roughness.png") 6)
  let h ← heapUpdate h glassMat (fun m =>
    m.SetTexture "TexAO" (env.LoadTexture "glass ao" "textures/pbr/plastic/ao.png") 7)
  let h ← heapUpdate h glassMat (fun m => { m with Blend := true })
  let tbl := mapAssign tbl (env.SID "glass") glassMat
  -- alpha blend material
  let alphaBlendShader := env.LoadShader "alpha blend" "shaders/forward_render.vs"
    "shaders/forward_render.fs" ["ALPHA_BLEND"]
  let (alphaBlendMaterial, h) := heapNew h (Material.ctor env alphaBlendShader)
  let h ← heapUpdate h alphaBlendMaterial (fun m => { m with Kind := .MATERIAL_CUSTOM })
  let h ← heapUpdate h alphaBlendMaterial (fun m => { m with Blend := true })
  let tbl := mapAssign tbl (env.SID "alpha blend") alphaBlendMaterial
  -- alpha cutout material
  let alphaDiscardShader := env.LoadShader "alpha discard" "shaders/forward_render.vs"
    "shaders/forward_render.fs" ["ALPHA_DISCARD"]
  let (alphaDiscardMaterial, h) := heapNew h (Material.ctor env alphaDiscardShader)
  let h ← heapUpdate h alphaDiscardMaterial (fun m => { m with Kind := .MATERIAL_CUSTOM })
  let h ← heapUpdate h alphaDiscardMaterial (fun m => { m with Cull := false })
  let tbl := mapAssign tbl (env.SID "alpha discard") alphaDiscardMaterial
  pure { lib with heap := h, m_DefaultMaterials := tbl }

/-- `MaterialLibrary::generateInternalMaterials(gBuffer)`: the internal materials
and shaders. The `Use` and `SetInt` calls act on shader objects only. -/
def MaterialLibrary.generateInternalMaterials (env : Env) (lib : MaterialLibrary) :
    Except Fault MaterialLibrary := do
  -- post-processing
  let defaultBlitShader := env.LoadShader "blit" "shaders/screen_quad.vs"
    "shaders/default_blit.fs" []
  let (blit, h) := heapNew lib.heap (Material.ctor env defaultBlitShader)
  let postProcessingShader := env.LoadShader "post processing" "shaders/screen_quad.vs"
    "shaders/post_processing.fs" []
  let (post, h) := heapNew h (Material.ctor env postProcessingShader)
  -- deferred
  let ambient := env.LoadShader "deferred ambient" "shaders/deferred/screen_ambient.vs"
    "shaders/deferred/ambient.fs" []
  let irradiance := env.LoadShader "deferred irradiance"
    "shaders/deferred/ambient_irradience.vs" "shaders/deferred/ambient_irradience.fs" []
  let directional := env.LoadShader "deferred directional"
    "shaders/deferred/screen_directional.vs" "shaders/deferred/directional.fs" []
  let point := env.LoadShader "deferred point" "shaders/deferred/point.vs"
    "shaders/deferred/point.fs" []
  -- shadows
  let shadow := env.LoadShader "shadow directional" "shaders/shadow_cast.vs"
    "shaders/shadow_cast.fs" []
  -- debug
  let debugLightShader := env.LoadShader "debug light" "shaders/light.vs" "shaders/light.fs" []
  let (debug, h) := heapNew h (Material.ctor env debugLightShader)
  pure { lib with
    heap := h
    defaultBlitMaterial := blit
    postProcessingMaterial := post
    debugLightMaterial := debug
    deferredAmbientShader := ambient
    deferredIrradianceShader := irradiance
    deferredDirectionalShader := directional
    deferredPointShader := point
    dirShadowShader := shadow }

/-- The constructor `MaterialLibrary::MaterialLibrary(gBuffer)`. -/
def MaterialLibrary.new (env : Env) : Except Fault MaterialLibrary := do
  let lib ← MaterialLibrary.generateDefaultMaterials env MaterialLibrary.empty
  MaterialLibrary.generateInternalMaterials env lib

/-- A client write through a pointer it got from the library: the object at `p`
becomes `m`. This is how `mat->SetTexture(...)` or `mat->Blend = ...` acts on the
library state. -/
def MaterialLibrary.store (lib : MaterialLibrary) (p : Ptr) (m : Material) :
    Except Fault MaterialLibrary :=
  match heapUpdate lib.heap p (fun _ => m) with
  | .ok h => .ok { lib with heap := h }
  | .error e => .error e

/-- The call `p->SetTexture(name, value, unit)` on a material of the library. -/
def MaterialLibrary.SetTexture (lib : MaterialLibrary) (p : Ptr) (name : String) (value : Ptr)
    (unit : Nat) : Except Fault MaterialLibrary :=
  match heapUpdate lib.heap p (fun m => m.SetTexture name value unit) with
  | .ok h => .ok { lib with heap := h }
  | .error e => .error e

/-- The library states a program can reach: the constructed library, then any
sequence of `Create*Material` calls and of client writes to instances the library
handed out (the members of `m_Materials`). -/
inductive Reachable (env : Env) : MaterialLibrary → Prop where
  | init {lib : MaterialLibrary} : MaterialLibrary.new env = .ok lib → Reachable env lib
  | createMaterial {lib lib1 : MaterialLibrary} (base : String) (p : Ptr) :
      Reachable env lib → lib.CreateMaterial env base = .ok (p, lib1) → Reachable env lib1
  | createCustom {lib lib1 : MaterialLibrary} (shader p : Ptr) :
      Reachable env lib → lib.CreateCustomMaterial env shader = .ok (p, lib1) →
      Reachable env lib1
  | createPostProcessing {lib lib1 : MaterialLibrary} (shader p : Ptr) :
      Reachable env lib → lib.CreatePostProcessingMaterial env shader = .ok (p, lib1) →
      Reachable env lib1
  | store {lib lib1 : MaterialLibrary} (p : Ptr) (m : Material) :
      Reachable env lib → p ∈ lib.m_Materials → lib.store p m = .ok lib1 → Reachable env lib1

/-- A sample string hash, used to run the library on concrete inputs. -/
def sampleSID (s : String) : Nat :=
  s.data.foldl (fun h c => (37 * h + 17 * c.toNat) % 4294967296) 0

/-- A sample environment: shaders and textures get the hash of their name (plus one,
so that none is null) as address, and a fresh material is a custom one with
blending off, culling on and depth test on. -/
def sampleEnv : Env :=
  { SID := sampleSID
    LoadShader := fun name _ _ _ => sampleSID name + 1
    LoadTexture := fun name _ => sampleSID name + 1
    ctorKind := .MATERIAL_CUSTOM
    ctorBlend := false
    ctorCull := true
    ctorDepthTest := true }

/-- The four templates as `generateDefaultMaterials` leaves them on the heap. -/
def templateHeap (env : Env) : List Material :=
  [ { m_Shader := env.LoadShader "default" "shaders/deferred/g_buffer.vs"
        "shaders/deferred/g_buffer.fs" []
      Kind := .MATERIAL_DEFAULT
      m_SamplerUniforms :=
        [ ("TexAlbedo", ⟨env.LoadTexture "default albedo" "textures/checkerboard.png", 3⟩),
          ("TexNormal", ⟨env.LoadTexture "default normal" "textures/norm.png", 4⟩),
          ("TexMetallic", ⟨env.LoadTexture "default metallic" "textures/black.png", 5⟩),
          ("TexRoughness", ⟨env.LoadTexture "default roughness" "textures/checkerboard.png", 6⟩),
          ("TexAO", ⟨env.LoadTexture "default ao" "textures/white.png", 7⟩) ]
      Blend := env.ctorBlend
      Cull := env.ctorCull
      DepthTest := env.ctorDepthTest },
    { m_Shader := env.LoadShader "glass" "shaders/forward_render.vs"
        "shaders/forward_render.fs" ["ALPHA_GLASS"]
      Kind := .MATERIAL_CUSTOM
      m_SamplerUniforms :=
        [ ("TexAlbedo", ⟨env.LoadTexture "glass albedo" "textures/glass.png", 3⟩),
          ("TexNormal", ⟨env.LoadTexture "glass normal" "textures/pbr/plastic/normal.png", 4⟩),
          ("TexMetallic",
            ⟨env.LoadTexture "glass metallic" "textures/pbr/plastic/metallic.png", 5⟩),
          ("TexRoughness",
            ⟨env.LoadTexture "glass roughness" "textures/pbr/plastic/roughness.png", 6⟩),
          ("TexAO", ⟨env.LoadTexture "glass ao" "textures/pbr/plastic/ao.png", 7⟩) ]
      Blend := true
      Cull := env.ctorCull
      DepthTest := env.ctorDepthTest },
    { m_Shader := env.LoadShader "alpha blend" "shaders/forward_render.vs"
        "shaders/forward_render.fs" ["ALPHA_BLEND"]
      Kind := .MATERIAL_CUSTOM
      m_SamplerUniforms := []
      Blend := true
      Cull := env.ctorCull
      DepthTest := env.ctorDepthTest },
    { m_Shader := env.LoadShader "alpha discard" "shaders/forward_render.vs"
        "shaders/forward_render.fs" ["ALPHA_DISCARD"]
      Kind := .MATERIAL_CUSTOM
      m_SamplerUniforms := []
      Blend := env.ctorBlend
      Cull := false
      DepthTest := env.ctorDepthTest } ]

/-- The template table as `generateDefaultMaterials` leaves it. -/
def templateTable (env : Env) : List (Nat × Ptr) :=
  mapAssign (mapAssign (mapAssign (mapAssign [] (env.SID "default") 1) (env.SID "glass") 2)
    (env.SID "alpha blend") 3) (env.SID "alpha discard") 4

/-- The library built by the constructor in the sample environment. -/
def sampleLib : MaterialLibrary :=
  match MaterialLibrary.new sampleEnv with
  | .ok lib => lib
  | .error _ => MaterialLibrary.empty

/-- What every reachable library state satisfies: the heap starts with the four
templates, unchanged, followed by at least the three internal materials; the
template table is the one the constructor built; every owned instance lies
behind the templates and the internal materials, inside the heap. -/
def Inv (env : Env) (lib : MaterialLibrary) : Prop :=
  ∃ rest : List Material,
    lib.heap = templateHeap env ++ rest ∧ 3 ≤ rest.length ∧
    lib.m_DefaultMaterials = templateTable env ∧
    ∀ p : Nat, p ∈ lib.m_Materials → 7 < p ∧ p ≤ lib.heap.length

/-- The two draw buckets of the command buffer. -/
inductive Bucket where
  | deferred
  | custom
deriving DecidableEq, Repr

/-- Modelled from the spec: the bucket a draw lands in, selected by the `Kind` of its
material (the command buffer is absent from the sources at hand). `Default` goes
to the deferred bucket, `Custom` to the custom (forward) bucket, and a
post-processing material to no draw bucket. -/
def drawBucket : MaterialType → Option Bucket
  | .MATERIAL_DEFAULT => some .deferred
  | .MATERIAL_CUSTOM => some .custom
  | .MATERIAL_POST_PROCESS => none

/-- Modelled from the spec: a render command, absent from the sources at hand: a mesh,
a material (with the `Kind` it has when pushed) and, in place of the world
transform, the camera-space depth of its translation, as a rational number. -/
structure RenderCommand where
  Mesh : Ptr
  Material : Ptr
  Kind : MaterialType
  depth : ℚ
deriving DecidableEq, Repr

/-- Modelled from the spec: the command buffer, absent from the sources at hand: the
deferred and the custom bucket, each in submission order. -/
structure CommandBuffer where
  deferred : List RenderCommand
  custom : List RenderCommand
deriving DecidableEq, Repr

/-- The command buffer at the start of a frame. -/
def CommandBuffer.empty : CommandBuffer :=
  { deferred := [], custom := [] }

/-- Modelled from the spec: `Renderer::PushRender(mesh, material, transform)`, declared
in `renderer.h` and defined elsewhere. It appends the command to the bucket
selected by the `Kind` of the material. -/
def CommandBuffer.PushRender (buf : CommandBuffer) (c : RenderCommand) : CommandBuffer :=
  match drawBucket c.Kind with
  | some .deferred => { buf with deferred := buf.deferred ++ [c] }
  | some .custom => { buf with custom := buf.custom ++ [c] }
  | none => buf

/-- One `PushRender` per command, in submission order. -/
def CommandBuffer.pushAll (buf : CommandBuffer) (cs : List RenderCommand) : CommandBuffer :=
  cs.foldl CommandBuffer.PushRender buf

/-- Insert `c`, submitted before every command of the sorted list, at its place: behind
the commands that are strictly deeper, in front of those of equal or lesser depth. -/
def insertBackToFront (c : RenderCommand) : List RenderCommand → List RenderCommand
  | [] => [c]
  | d :: rest =>
    if c.depth < d.depth then d :: insertBackToFront c rest else c :: d :: rest

/-- Modelled from the spec: the sort of the custom bucket, back-to-front by camera-space
depth, equal depths keeping their submission order (a stable insertion sort). -/
def sortBackToFront : List RenderCommand → List RenderCommand
  | [] => []
  | c :: rest => insertBackToFront c (sortBackToFront rest)

/-- Modelled from the spec: the forward pass of `Renderer::RenderPushedCommands()`,
declared in `renderer.h` and defined elsewhere. It gives the custom-bucket
commands in the order they are drawn, and the buffer left for the next frame. -/
def CommandBuffer.RenderPushedCommands (buf : CommandBuffer) :
    List RenderCommand × CommandBuffer :=
  (sortBackToFront buf.custom, CommandBuffer.empty)


/-! ## Association lists -/

theorem mapFind_mapAssign {κ ν : Type} [DecidableEq κ] (m : List (κ × ν)) (k k' : κ) (v : ν) :
    mapFind (mapAssign m k' v) k = if k' = k then some v else mapFind m k := by
  induction m with
  | nil => simp [mapAssign, mapFind]
  | cons e rest ih =>
    obtain ⟨a, b⟩ := e
    by_cases hak' : a = k'
    · subst hak'
      by_cases hak : a = k <;> simp [mapAssign, mapFind, hak]
    · by_cases hak : a = k
      · subst hak
        have hne : ¬ k' = a := fun h => hak' h.symm
        simp [mapAssign, mapFind, hak', hne]
      · simp [mapAssign, mapFind, hak', hak, ih]

theorem mem_mapAssign {κ ν : Type} [DecidableEq κ] (m : List (κ × ν)) (k k' : κ) (v v' : ν)
    (h : (k, v) ∈ mapAssign m k' v') : (k = k' ∧ v = v') ∨ (k, v) ∈ m := by
  induction m with
  | nil => simpa [mapAssign] using h
  | cons e rest ih =>
    obtain ⟨a, b⟩ := e
    by_cases hak' : a = k'
    · subst hak'
      simp only [mapAssign, if_true, List.mem_cons, Prod.mk.injEq] at h
      rcases h with ⟨h1, h2⟩ | h
      · exact Or.inl ⟨h1, h2⟩
      · exact Or.inr (List.mem_cons_of_mem _ h)
    · simp only [mapAssign, hak', if_false, List.mem_cons, Prod.mk.injEq] at h
      rcases h with ⟨h1, h2⟩ | h
      · exact Or.inr (by simp [h1, h2])
      · rcases ih h with h | h
        · exact Or.inl h
        · exact Or.inr (List.mem_cons_of_mem _ h)

/-! ## The heap -/

theorem heapDeref_append {h : List Material} {p : Nat} {m : Material} (l : List Material)
    (hd : heapDeref h p = some m) : heapDeref (h ++ l) p = some m := by
  simp only [heapDeref, List.get?_eq_getElem?] at hd ⊢
  by_cases hp : p = 0
  · simp [hp] at hd
  · simp only [hp, if_false] at hd ⊢
    obtain ⟨hlt, _⟩ := List.getElem?_eq_some.1 hd
    rw [List.getElem?_append_left hlt, hd]

theorem heapDeref_new (h : List Material) (m : Material) :
    heapDeref (h ++ [m]) (h.length + 1) = some m := by
  simp [heapDeref]

theorem heapDeref_lt {h : List Material} {p : Nat} {m : Material}
    (hd : heapDeref h p = some m) : 0 < p ∧ p ≤ h.length := by
  simp only [heapDeref, List.get?_eq_getElem?] at hd
  by_cases hp : p = 0
  · simp [hp] at hd
  · simp only [hp, if_false] at hd
    obtain ⟨hlt, _⟩ := List.getElem?_eq_some.1 hd
    omega

theorem heapUpdate_new (h : List Material) (m : Material) (f : Material → Material) :
    heapUpdate (h ++ [m]) (h.length + 1) f = .ok (h ++ [f m]) := by
  simp [heapUpdate, heapDeref_new]

theorem heapDeref_set_ne (h : List Material) (p q : Nat) (m : Material) (hp : p ≠ 0)
    (hq : q ≠ p) : heapDeref (h.set (p - 1) m) q = heapDeref h q := by
  simp only [heapDeref, List.get?_eq_getElem?]
  by_cases hq0 : q = 0
  · simp [hq0]
  · simp only [hq0, if_false]
    rw [List.getElem?_set_ne]
    omega

theorem heapDeref_set_eq (h : List Material) (p : Nat) (m : Material)
    (hp : 0 < p ∧ p ≤ h.length) : heapDeref (h.set (p - 1) m) p = some m := by
  simp only [heapDeref, List.get?_eq_getElem?]
  have hp0 : p ≠ 0 := by omega
  simp only [hp0, if_false]
  rw [List.getElem?_set_self (by omega)]


theorem heapUpdate_ok {h : List Material} {p : Nat} {m : Material} (f : Material → Material)
    (hd : heapDeref h p = some m) : heapUpdate h p f = .ok (h.set (p - 1) (f m)) := by
  simp [heapUpdate, hd]

theorem heapUpdate_inv {h h1 : List Material} {p : Nat} {f : Material → Material}
    (hu : heapUpdate h p f = .ok h1) :
    ∃ m, heapDeref h p = some m ∧ h1 = h.set (p - 1) (f m) := by
  unfold heapUpdate at hu
  cases hd : heapDeref h p with
  | none => simp [hd] at hu
  | some m =>
    simp only [hd, Except.ok.injEq] at hu
    exact ⟨m, rfl, hu.symm⟩

/-! ## The operations, in closed form -/

theorem CreateCustomMaterial_eq (env : Env) (lib : MaterialLibrary) (shader : Ptr) :
    lib.CreateCustomMaterial env shader = .ok (lib.heap.length + 1,
      { lib with
        heap := lib.heap ++ [{ Material.ctor env shader with Kind := .MATERIAL_CUSTOM }]
        m_Materials := lib.m_Materials ++ [lib.heap.length + 1] }) := by
  simp [MaterialLibrary.CreateCustomMaterial, heapNew, heapUpdate_new, bind, Except.bind, pure,
    Except.pure]

theorem CreatePostProcessingMaterial_eq (env : Env) (lib : MaterialLibrary) (shader : Ptr) :
    lib.CreatePostProcessingMaterial env shader = .ok (lib.heap.length + 1,
      { lib with
        heap := lib.heap ++ [{ Material.ctor env shader with Kind := .MATERIAL_POST_PROCESS }]
        m_Materials := lib.m_Materials ++ [lib.heap.length + 1] }) := by
  simp [MaterialLibrary.CreatePostProcessingMaterial, heapNew, heapUpdate_new, bind, Except.bind,
    pure, Except.pure]

theorem CreateMaterial_found {env : Env} {lib : MaterialLibrary} {base : String} {found : Ptr}
    {tmpl : Material} (hf : mapFind lib.m_DefaultMaterials (env.SID base) = some found)
    (hd : heapDeref lib.heap found = some tmpl) :
    lib.CreateMaterial env base = .ok (lib.heap.length + 1,
      { lib with
        heap := lib.heap ++ [tmpl.Copy]
        m_Materials := lib.m_Materials ++ [lib.heap.length + 1] }) := by
  simp [MaterialLibrary.CreateMaterial, hf, hd, heapNew]

theorem CreateMaterial_unknown {env : Env} {lib : MaterialLibrary} {base : String}
    (hf : mapFind lib.m_DefaultMaterials (env.SID base) = none) :
    lib.CreateMaterial env base = .ok (nullptr, lib) := by
  simp [MaterialLibrary.CreateMaterial, hf]

theorem generateDefaultMaterials_eq (env : Env) (lib : MaterialLibrary) :
    MaterialLibrary.generateDefaultMaterials env lib = .ok { lib with
      heap := lib.heap ++ templateHeap env
      m_DefaultMaterials :=
        mapAssign (mapAssign (mapAssign (mapAssign lib.m_DefaultMaterials
          (env.SID "default") (lib.heap.length + 1)) (env.SID "glass") (lib.heap.length + 2))
          (env.SID "alpha blend") (lib.heap.length + 3))
          (env.SID "alpha discard") (lib.heap.length + 4) } := by
  unfold MaterialLibrary.generateDefaultMaterials
  simp only [heapNew, heapUpdate_new, bind, Except.bind, pure, Except.pure]
  simp [Material.SetTexture, Material.ctor, mapAssign, templateHeap, Nat.add_assoc]

theorem generateInternalMaterials_eq (env : Env) (lib : MaterialLibrary) :
    MaterialLibrary.generateInternalMaterials env lib = .ok { lib with
      heap := lib.heap ++
        [Material.ctor env (env.LoadShader "blit" "shaders/screen_quad.vs"
            "shaders/default_blit.fs" []),
          Material.ctor env (env.LoadShader "post processing" "shaders/screen_quad.vs"
            "shaders/post_processing.fs" []),
          Material.ctor env (env.LoadShader "debug light" "shaders/light.vs"
            "shaders/light.fs" [])]
      defaultBlitMaterial := lib.heap.length + 1
      postProcessingMaterial := lib.heap.length + 2
      debugLightMaterial := lib.heap.length + 3
      deferredAmbientShader := env.LoadShader "deferred ambient"
        "shaders/deferred/screen_ambient.vs" "shaders/deferred/ambient.fs" []
      deferredIrradianceShader := env.LoadShader "deferred irradiance"
        "shaders/deferred/ambient_irradience.vs" "shaders/deferred/ambient_irradience.fs" []
      deferredDirectionalShader := env.LoadShader "deferred directional"
        "shaders/deferred/screen_directional.vs" "shaders/deferred/directional.fs" []
      deferredPointShader := env.LoadShader "deferred point" "shaders/deferred/point.vs"
        "shaders/deferred/point.fs" []
      dirShadowShader := env.LoadShader "shadow directional" "shaders/shadow_cast.vs"
        "shaders/shadow_cast.fs" [] } := by
  unfold MaterialLibrary.generateInternalMaterials
  simp [heapNew, pure, Except.pure, Nat.add_assoc]

theorem new_eq (env : Env) :
    ∃ lib, MaterialLibrary.new env = .ok lib ∧
      lib.heap = templateHeap env ++
        [Material.ctor env (env.LoadShader "blit" "shaders/screen_quad.vs"
            "shaders/default_blit.fs" []),
          Material.ctor env (env.LoadShader "post processing" "shaders/screen_quad.vs"
            "shaders/post_processing.fs" []),
          Material.ctor env (env.LoadShader "debug light" "shaders/light.vs"
            "shaders/light.fs" [])] ∧
      lib.m_DefaultMaterials = templateTable env ∧ lib.m_Materials = [] := by
  unfold MaterialLibrary.new
  simp only [generateDefaultMaterials_eq, generateInternalMaterials_eq, bind, Except.bind]
  exact ⟨_, rfl, by simp only [MaterialLibrary.empty, List.nil_append], rfl, rfl⟩

theorem Inv_new {env : Env} {lib : MaterialLibrary} (h : MaterialLibrary.new env = .ok lib) :
    Inv env lib := by
  obtain ⟨lib0, h0, hheap, htbl, hmat⟩ := new_eq env
  rw [h0] at h
  cases h
  exact ⟨_, hheap, by simp, htbl, by simp [hmat]⟩

theorem Inv_heap_length {env : Env} {lib : MaterialLibrary} (h : Inv env lib) :
    7 ≤ lib.heap.length := by
  obtain ⟨rest, hheap, hlen, _, _⟩ := h
  rw [hheap]
  simp [templateHeap]
  omega

theorem Inv_push {env : Env} {lib : MaterialLibrary} (h : Inv env lib) (m : Material) :
    Inv env { lib with
      heap := lib.heap ++ [m]
      m_Materials := lib.m_Materials ++ [lib.heap.length + 1] } := by
  have h7 := Inv_heap_length h
  obtain ⟨rest, hheap, hlen, htbl, hmat⟩ := h
  refine ⟨rest ++ [m], ?_, ?_, htbl, ?_⟩
  · simp [hheap]
  · simp
    omega
  · intro p hp
    simp only [List.mem_append, List.mem_singleton, List.length_append, List.length_singleton]
      at hp ⊢
    rcases hp with hp | hp
    · have := hmat p hp
      omega
    · omega

theorem Inv_store {env : Env} {lib lib1 : MaterialLibrary} (h : Inv env lib) {p : Nat}
    {m : Material} (hp : p ∈ lib.m_Materials) (hs : lib.store p m = .ok lib1) :
    Inv env lib1 := by
  obtain ⟨rest, hheap, hlen, htbl, hmat⟩ := h
  have hp7 := hmat p hp
  unfold MaterialLibrary.store at hs
  cases hu : heapUpdate lib.heap p (fun _ => m) with
  | error e => simp [hu] at hs
  | ok h1 =>
    simp only [hu, Except.ok.injEq] at hs
    subst hs
    obtain ⟨m0, _, rfl⟩ := heapUpdate_inv hu
    refine ⟨rest.set (p - 1 - 4) m, ?_, ?_, htbl, ?_⟩
    · have h4 : ¬ p - 1 < (templateHeap env).length := by
        simp [templateHeap]
        omega
      simp only [hheap, List.set_append, h4, if_false]
      simp [templateHeap]
    · simpa using hlen
    · intro q hq
      have := hmat q hq
      simpa using this

theorem Reachable.inv {env : Env} {lib : MaterialLibrary} (h : Reachable env lib) :
    Inv env lib := by
  induction h with
  | init h0 => exact Inv_new h0
  | @createMaterial lib lib1 base p _ hc ih =>
    unfold MaterialLibrary.CreateMaterial at hc
    cases hf : mapFind lib.m_DefaultMaterials (env.SID base) with
    | none =>
      simp only [hf, Except.ok.injEq, Prod.mk.injEq] at hc
      rw [← hc.2]
      exact ih
    | some found =>
      cases hd : heapDeref lib.heap found with
      | none => simp [hf, hd] at hc
      | some tmpl =>
        simp only [hf, hd, heapNew, Except.ok.injEq, Prod.mk.injEq] at hc
        rw [← hc.2]
        exact Inv_push ih _
  | @createCustom lib lib1 shader p _ hc ih =>
    rw [CreateCustomMaterial_eq] at hc
    simp only [Except.ok.injEq, Prod.mk.injEq] at hc
    rw [← hc.2]
    exact Inv_push ih _
  | @createPostProcessing lib lib1 shader p _ hc ih =>
    rw [CreatePostProcessingMaterial_eq] at hc
    simp only [Except.ok.injEq, Prod.mk.injEq] at hc
    rw [← hc.2]
    exact Inv_push ih _
  | @store lib lib1 p m _ hp hs ih => exact Inv_store ih hp hs


/-! ## The template table -/

theorem mapFind_mem {κ ν : Type} [DecidableEq κ] {m : List (κ × ν)} {k : κ} {v : ν}
    (h : mapFind m k = some v) : (k, v) ∈ m := by
  induction m with
  | nil => simp [mapFind] at h
  | cons e rest ih =>
    obtain ⟨a, b⟩ := e
    by_cases hak : a = k
    · subst hak
      simp only [mapFind, if_true, Option.some.injEq] at h
      simp [h]
    · simp only [mapFind, hak, if_false] at h
      exact List.mem_cons_of_mem _ (ih h)

theorem templateTable_find (env : Env) (k : Nat) :
    mapFind (templateTable env) k =
      if env.SID "alpha discard" = k then some 4
      else if env.SID "alpha blend" = k then some 3
      else if env.SID "glass" = k then some 2
      else if env.SID "default" = k then some 1
      else none := by
  simp [templateTable, mapFind_mapAssign, mapFind]

theorem templateTable_mem {env : Env} {k p : Nat} (h : (k, p) ∈ templateTable env) :
    (k = env.SID "default" ∧ p = 1) ∨ (k = env.SID "glass" ∧ p = 2) ∨
      (k = env.SID "alpha blend" ∧ p = 3) ∨ (k = env.SID "alpha discard" ∧ p = 4) := by
  unfold templateTable at h
  rcases mem_mapAssign _ _ _ _ _ h with h | h
  · exact Or.inr (Or.inr (Or.inr h))
  rcases mem_mapAssign _ _ _ _ _ h with h | h
  · exact Or.inr (Or.inr (Or.inl h))
  rcases mem_mapAssign _ _ _ _ _ h with h | h
  · exact Or.inr (Or.inl h)
  rcases mem_mapAssign _ _ _ _ _ h with h | h
  · exact Or.inl h
  · simp at h

theorem templateTable_find_range {env : Env} {k p : Nat}
    (h : mapFind (templateTable env) k = some p) : p = 1 ∨ p = 2 ∨ p = 3 ∨ p = 4 := by
  rcases templateTable_mem (mapFind_mem h) with h | h | h | h <;> simp [h.2]

theorem templateTable_find_name (env : Env) {base : String}
    (hb : base ∈ ["default", "glass", "alpha blend", "alpha discard"]) :
    ∃ p, mapFind (templateTable env) (env.SID base) = some p := by
  rw [templateTable_find]
  simp only [List.mem_cons, List.mem_singleton, List.not_mem_nil, or_false] at hb
  rcases hb with rfl | rfl | rfl | rfl <;> split_ifs <;> simp_all

theorem Inv.deref_template {env : Env} {lib : MaterialLibrary} (h : Inv env lib) {p : Nat}
    (hp : p = 1 ∨ p = 2 ∨ p = 3 ∨ p = 4) :
    ∃ t, heapDeref lib.heap p = some t ∧ (templateHeap env).get? (p - 1) = some t := by
  obtain ⟨rest, hheap, _, _, _⟩ := h
  rcases hp with rfl | rfl | rfl | rfl <;> simp [heapDeref, hheap, templateHeap]

theorem Inv.find_template {env : Env} {lib : MaterialLibrary} (h : Inv env lib) {base : String}
    {found : Nat} (hf : mapFind lib.m_DefaultMaterials (env.SID base) = some found) :
    (found = 1 ∨ found = 2 ∨ found = 3 ∨ found = 4) ∧
      ∃ t, heapDeref lib.heap found = some t ∧ (templateHeap env).get? (found - 1) = some t := by
  have htbl : lib.m_DefaultMaterials = templateTable env := by
    obtain ⟨_, _, _, htbl, _⟩ := h
    exact htbl
  rw [htbl] at hf
  exact ⟨templateTable_find_range hf, h.deref_template (templateTable_find_range hf)⟩

theorem SetTexture_ok {lib : MaterialLibrary} {p : Nat} {m : Material} (name : String)
    (value : Ptr) (unit : Nat) (hd : heapDeref lib.heap p = some m) :
    lib.SetTexture p name value unit =
      .ok { lib with heap := lib.heap.set (p - 1) (m.SetTexture name value unit) } := by
  simp [MaterialLibrary.SetTexture, heapUpdate, hd]

theorem new_sampleEnv : MaterialLibrary.new sampleEnv = .ok sampleLib := rfl

theorem sampleLib_reachable : Reachable sampleEnv sampleLib :=
  Reachable.init new_sampleEnv

theorem sampleLib_table : sampleLib.m_DefaultMaterials = templateTable sampleEnv := by
  obtain ⟨_, _, _, htbl, _⟩ := sampleLib_reachable.inv
  exact htbl


/-! ## The claims on the material library -/

/-- C1: for every library state and every template name that matches no registered
template, `CreateMaterial` returns the null pointer and leaves the owned-materials
collection `m_Materials` as it was (the whole library state is unchanged). -/
theorem CreateMaterial_unknown_template (env : Env) (lib : MaterialLibrary) (base : String)
    (h : mapFind lib.m_DefaultMaterials (env.SID base) = none) :
    ∃ lib1, lib.CreateMaterial env base = .ok (nullptr, lib1) ∧
      lib1.m_Materials = lib.m_Materials ∧ lib1 = lib :=
  ⟨lib, CreateMaterial_unknown h, rfl, rfl⟩

theorem CreateMaterial_unknown_template_witness :
    mapFind sampleLib.m_DefaultMaterials (sampleEnv.SID "nonexistent") = none ∧
      ∃ lib1, sampleLib.CreateMaterial sampleEnv "nonexistent" = .ok (nullptr, lib1) ∧
        lib1.m_Materials = sampleLib.m_Materials ∧ lib1 = sampleLib :=
  ⟨by rw [sampleLib_table]; decide,
    CreateMaterial_unknown_template sampleEnv sampleLib "nonexistent"
      (by rw [sampleLib_table]; decide)⟩

/-- C2: in every reachable library state two successive calls `CreateMaterial("default")`
succeed and return two distinct non-null instances, both distinct from the template
registered under "default"; both instances are copies of that template; and a
`SetTexture` on either instance changes that instance only: the other instance,
the template and the template table are as before. -/
theorem CreateMaterial_default_isolated (env : Env) (lib : MaterialLibrary)
    (h : Reachable env lib) :
    ∃ (tp p1 p2 : Ptr) (lib1 lib2 : MaterialLibrary) (tmpl : Material),
      mapFind lib.m_DefaultMaterials (env.SID "default") = some tp ∧
      heapDeref lib.heap tp = some tmpl ∧
      lib.CreateMaterial env "default" = .ok (p1, lib1) ∧
      lib1.CreateMaterial env "default" = .ok (p2, lib2) ∧
      p1 ≠ nullptr ∧ p2 ≠ nullptr ∧ p1 ≠ p2 ∧ p1 ≠ tp ∧ p2 ≠ tp ∧
      heapDeref lib2.heap p1 = some tmpl.Copy ∧ heapDeref lib2.heap p2 = some tmpl.Copy ∧
      heapDeref lib2.heap tp = some tmpl ∧
      (∀ (name : String) (value : Ptr) (unit : Nat), ∃ lib3,
        lib2.SetTexture p1 name value unit = .ok lib3 ∧
        heapDeref lib3.heap p1 = some (tmpl.Copy.SetTexture name value unit) ∧
        heapDeref lib3.heap p2 = heapDeref lib2.heap p2 ∧
        heapDeref lib3.heap tp = heapDeref lib2.heap tp ∧
        lib3.m_DefaultMaterials = lib2.m_DefaultMaterials) ∧
      (∀ (name : String) (value : Ptr) (unit : Nat), ∃ lib3,
        lib2.SetTexture p2 name value unit = .ok lib3 ∧
        heapDeref lib3.heap p2 = some (tmpl.Copy.SetTexture name value unit) ∧
        heapDeref lib3.heap p1 = heapDeref lib2.heap p1 ∧
        heapDeref lib3.heap tp = heapDeref lib2.heap tp ∧
        lib3.m_DefaultMaterials = lib2.m_DefaultMaterials) := by
  have hinv := h.inv
  have h7 := Inv_heap_length hinv
  have htbl : lib.m_DefaultMaterials = templateTable env := by
    obtain ⟨_, _, _, htbl, _⟩ := hinv
    exact htbl
  obtain ⟨tp, hf⟩ := templateTable_find_name env
    (show "default" ∈ ["default", "glass", "alpha blend", "alpha discard"] by simp)
  rw [← htbl] at hf
  obtain ⟨hrange, tmpl, hd, _⟩ := hinv.find_template hf
  have hc1 := CreateMaterial_found hf hd
  have hd1 : heapDeref (lib.heap ++ [tmpl.Copy]) tp = some tmpl := heapDeref_append _ hd
  have hc2 := @CreateMaterial_found env
    { lib with
      heap := lib.heap ++ [tmpl.Copy]
      m_Materials := lib.m_Materials ++ [lib.heap.length + 1] } "default" tp tmpl hf hd1
  have hp1 : heapDeref ((lib.heap ++ [tmpl.Copy]) ++ [tmpl.Copy]) (lib.heap.length + 1) =
      some tmpl.Copy := heapDeref_append _ (heapDeref_new _ _)
  have hp2 : heapDeref ((lib.heap ++ [tmpl.Copy]) ++ [tmpl.Copy])
      ((lib.heap ++ [tmpl.Copy]).length + 1) = some tmpl.Copy := heapDeref_new _ _
  have hl : (lib.heap ++ [tmpl.Copy]).length = lib.heap.length + 1 := by simp
  have htp1 : @Ne Nat tp (lib.heap.length + 1) := by omega
  have htp2 : @Ne Nat tp ((lib.heap ++ [tmpl.Copy]).length + 1) := by omega
  have h12 : (lib.heap ++ [tmpl.Copy]).length + 1 ≠ lib.heap.length + 1 := by omega
  refine ⟨tp, lib.heap.length + 1, (lib.heap ++ [tmpl.Copy]).length + 1, _, _, tmpl, hf, hd, hc1,
    hc2, ?_, ?_, ?_, ?_, ?_, hp1, hp2, heapDeref_append _ hd1, ?_, ?_⟩
  · simp [nullptr]
  · simp [nullptr]
  · exact fun e => h12 e.symm
  · exact fun e => htp1 e.symm
  · exact fun e => htp2 e.symm
  · intro name value unit
    refine ⟨_, SetTexture_ok name value unit hp1, ?_, ?_, ?_, rfl⟩
    · exact heapDeref_set_eq _ _ _ (heapDeref_lt hp1)
    · exact heapDeref_set_ne _ _ _ _ (Nat.succ_ne_zero _) h12
    · exact heapDeref_set_ne _ _ _ _ (Nat.succ_ne_zero _) htp1
  · intro name value unit
    refine ⟨_, SetTexture_ok name value unit hp2, ?_, ?_, ?_, rfl⟩
    · exact heapDeref_set_eq _ _ _ (heapDeref_lt hp2)
    · exact heapDeref_set_ne _ _ _ _ (Nat.succ_ne_zero _) (fun e => h12 e.symm)
    · exact heapDeref_set_ne _ _ _ _ (Nat.succ_ne_zero _) htp2


/-- C3: each of `CreateMaterial` (with a registered template name, in a reachable
state), `CreateCustomMaterial` and `CreatePostProcessingMaterial` (in any state)
succeeds, returns a non-null pointer to a live instance, leaves `m_Materials` equal
to the previous collection with exactly that pointer appended at the end, leaves
the template table unchanged and leaves every object that was on the heap, the
templates among them, unchanged. -/
theorem Create_appends_instance (env : Env) (lib : MaterialLibrary) :
    (∀ base found, Reachable env lib →
      mapFind lib.m_DefaultMaterials (env.SID base) = some found →
      ∃ p lib1, lib.CreateMaterial env base = .ok (p, lib1) ∧ p ≠ nullptr ∧
        (heapDeref lib1.heap p).isSome ∧
        lib1.m_Materials = lib.m_Materials ++ [p] ∧
        lib1.m_DefaultMaterials = lib.m_DefaultMaterials ∧
        ∀ q m, heapDeref lib.heap q = some m → heapDeref lib1.heap q = some m) ∧
    (∀ shader, ∃ p lib1, lib.CreateCustomMaterial env shader = .ok (p, lib1) ∧ p ≠ nullptr ∧
        (heapDeref lib1.heap p).isSome ∧
        lib1.m_Materials = lib.m_Materials ++ [p] ∧
        lib1.m_DefaultMaterials = lib.m_DefaultMaterials ∧
        ∀ q m, heapDeref lib.heap q = some m → heapDeref lib1.heap q = some m) ∧
    (∀ shader, ∃ p lib1, lib.CreatePostProcessingMaterial env shader = .ok (p, lib1) ∧
        p ≠ nullptr ∧ (heapDeref lib1.heap p).isSome ∧
        lib1.m_Materials = lib.m_Materials ++ [p] ∧
        lib1.m_DefaultMaterials = lib.m_DefaultMaterials ∧
        ∀ q m, heapDeref lib.heap q = some m → heapDeref lib1.heap q = some m) := by
  refine ⟨?_, ?_, ?_⟩
  · intro base found hr hf
    obtain ⟨_, tmpl, hd, _⟩ := hr.inv.find_template hf
    refine ⟨_, _, CreateMaterial_found hf hd, by simp [nullptr], ?_, rfl, rfl, ?_⟩
    · simp [heapDeref_new]
    · exact fun q m hq => heapDeref_append _ hq
  · intro shader
    refine ⟨_, _, CreateCustomMaterial_eq env lib shader, by simp [nullptr], ?_, rfl, rfl, ?_⟩
    · simp [heapDeref_new]
    · exact fun q m hq => heapDeref_append _ hq
  · intro shader
    refine ⟨_, _, CreatePostProcessingMaterial_eq env lib shader, by simp [nullptr], ?_, rfl,
      rfl, ?_⟩
    · simp [heapDeref_new]
    · exact fun q m hq => heapDeref_append _ hq

/-- C4: in every reachable library state and for every registered template name
("default", "glass", "alpha blend", "alpha discard"), `CreateMaterial` succeeds and
returns a non-null pointer to an instance that has the same shader reference, the
same `Kind`, the same texture-slot table and the same `Blend`, `Cull` and
`DepthTest` flags as the template registered under that name. -/
theorem CreateMaterial_clones_template (env : Env) (lib : MaterialLibrary) (base : String)
    (h : Reachable env lib)
    (hb : base ∈ ["default", "glass", "alpha blend", "alpha discard"]) :
    ∃ (found p : Ptr) (lib1 : MaterialLibrary) (tmpl inst : Material),
      mapFind lib.m_DefaultMaterials (env.SID base) = some found ∧
      heapDeref lib.heap found = some tmpl ∧
      lib.CreateMaterial env base = .ok (p, lib1) ∧ p ≠ nullptr ∧
      heapDeref lib1.heap p = some inst ∧
      inst.m_Shader = tmpl.m_Shader ∧ inst.Kind = tmpl.Kind ∧
      inst.m_SamplerUniforms = tmpl.m_SamplerUniforms ∧
      inst.Blend = tmpl.Blend ∧ inst.Cull = tmpl.Cull ∧ inst.DepthTest = tmpl.DepthTest := by
  have hinv := h.inv
  have htbl : lib.m_DefaultMaterials = templateTable env := by
    obtain ⟨_, _, _, htbl, _⟩ := hinv
    exact htbl
  obtain ⟨found, hf⟩ := templateTable_find_name env hb
  rw [← htbl] at hf
  obtain ⟨_, tmpl, hd, _⟩ := hinv.find_template hf
  exact ⟨found, _, _, tmpl, tmpl.Copy, hf, hd, CreateMaterial_found hf hd, by simp [nullptr],
    heapDeref_new _ _, rfl, rfl, rfl, rfl, rfl, rfl⟩

/-- C5: for every library state and every shader, `CreateCustomMaterial(shader)`
succeeds and returns a non-null pointer to an instance that wraps that shader, has
`Kind = Custom` and has an empty texture-slot table. -/
theorem CreateCustomMaterial_instance (env : Env) (lib : MaterialLibrary) (shader : Ptr) :
    ∃ (p : Ptr) (lib1 : MaterialLibrary) (inst : Material),
      lib.CreateCustomMaterial env shader = .ok (p, lib1) ∧ p ≠ nullptr ∧
      heapDeref lib1.heap p = some inst ∧
      inst.m_Shader = shader ∧ inst.Kind = .MATERIAL_CUSTOM ∧ inst.m_SamplerUniforms = [] :=
  ⟨_, _, _, CreateCustomMaterial_eq env lib shader, by simp [nullptr], heapDeref_new _ _, rfl,
    rfl, rfl⟩

/-- C6: for every library state and every shader, `CreatePostProcessingMaterial(shader)`
succeeds and returns a non-null pointer to an instance that wraps that shader and has
`Kind = PostProcess`; that `Kind` is neither `Default` nor `Custom` and selects no
draw bucket. -/
theorem CreatePostProcessingMaterial_instance (env : Env) (lib : MaterialLibrary)
    (shader : Ptr) :
    ∃ (p : Ptr) (lib1 : MaterialLibrary) (inst : Material),
      lib.CreatePostProcessingMaterial env shader = .ok (p, lib1) ∧ p ≠ nullptr ∧
      heapDeref lib1.heap p = some inst ∧
      inst.m_Shader = shader ∧ inst.Kind = .MATERIAL_POST_PROCESS ∧
      inst.Kind ≠ .MATERIAL_DEFAULT ∧ inst.Kind ≠ .MATERIAL_CUSTOM ∧
      drawBucket inst.Kind = none :=
  ⟨_, _, _, CreatePostProcessingMaterial_eq env lib shader, by simp [nullptr],
    heapDeref_new _ _, rfl, rfl, by simp, by simp, rfl⟩


theorem templateTable_find_custom (env : Env) {base : String}
    (hb : base ∈ ["glass", "alpha blend", "alpha discard"]) :
    ∃ p, mapFind (templateTable env) (env.SID base) = some p ∧ (p = 2 ∨ p = 3 ∨ p = 4) := by
  rw [templateTable_find]
  simp only [List.mem_cons, List.mem_singleton, List.not_mem_nil, or_false] at hb
  rcases hb with rfl | rfl | rfl <;> split_ifs <;> simp_all

theorem templateTable_find_default (env : Env)
    (hd : env.SID "default" ∉
      [env.SID "glass", env.SID "alpha blend", env.SID "alpha discard"]) :
    mapFind (templateTable env) (env.SID "default") = some 1 := by
  rw [templateTable_find]
  simp only [List.mem_cons, List.mem_singleton, List.not_mem_nil, or_false, not_or] at hd
  obtain ⟨h1, h2, h3⟩ := hd
  simp [Ne.symm h1, Ne.symm h2, Ne.symm h3]

theorem templateHeap_kind_custom (env : Env) {p : Nat} {t : Material}
    (hp : p = 2 ∨ p = 3 ∨ p = 4) (ht : (templateHeap env).get? (p - 1) = some t) :
    t.Kind = .MATERIAL_CUSTOM := by
  rcases hp with rfl | rfl | rfl <;> simp [templateHeap] at ht <;> subst ht <;> rfl

theorem templateHeap_first (env : Env) {t : Material}
    (ht : (templateHeap env).get? 0 = some t) : t.Kind = .MATERIAL_DEFAULT := by
  simp [templateHeap] at ht
  subst ht
  rfl

/-- C7, the claim as stated fails: in the library built by the constructor (sample
environment), `CreateMaterial("glass")` returns the instance at address 8, and its
`Kind` is `Custom`. -/
theorem CreateMaterial_glass_is_custom :
    ∃ lib1, sampleLib.CreateMaterial sampleEnv "glass" = .ok (8, lib1) ∧
      (heapDeref lib1.heap 8).map (fun m => m.Kind) = some .MATERIAL_CUSTOM :=
  ⟨_, rfl, rfl⟩

/-- C7, amended: in every reachable library state, `CreateMaterial` with the name
"glass", "alpha blend" or "alpha discard" returns an instance whose `Kind` is
`Custom`; with the name "default" (when its key is shared with none of the other
three names) it returns an instance whose `Kind` is `Default`, hence not `Custom`. -/
theorem CreateMaterial_kind (env : Env) (lib : MaterialLibrary) (h : Reachable env lib) :
    (∀ base, base ∈ ["glass", "alpha blend", "alpha discard"] →
      ∃ (p : Ptr) (lib1 : MaterialLibrary) (inst : Material),
        lib.CreateMaterial env base = .ok (p, lib1) ∧ heapDeref lib1.heap p = some inst ∧
        inst.Kind = .MATERIAL_CUSTOM) ∧
    (env.SID "default" ∉ [env.SID "glass", env.SID "alpha blend", env.SID "alpha discard"] →
      ∃ (p : Ptr) (lib1 : MaterialLibrary) (inst : Material),
        lib.CreateMaterial env "default" = .ok (p, lib1) ∧ heapDeref lib1.heap p = some inst ∧
        inst.Kind = .MATERIAL_DEFAULT ∧ inst.Kind ≠ .MATERIAL_CUSTOM) := by
  have hinv := h.inv
  have htbl : lib.m_DefaultMaterials = templateTable env := by
    obtain ⟨_, _, _, htbl, _⟩ := hinv
    exact htbl
  refine ⟨?_, ?_⟩
  · intro base hb
    obtain ⟨found, hf, hrange⟩ := templateTable_find_custom env hb
    rw [← htbl] at hf
    obtain ⟨_, tmpl, hd, ht⟩ := hinv.find_template hf
    exact ⟨_, _, tmpl.Copy, CreateMaterial_found hf hd, heapDeref_new _ _,
      templateHeap_kind_custom env hrange ht⟩
  · intro hne
    have hf := templateTable_find_default env hne
    rw [← htbl] at hf
    obtain ⟨_, tmpl, hd, ht⟩ := hinv.find_template hf
    have hk : tmpl.Copy.Kind = .MATERIAL_DEFAULT := templateHeap_first env ht
    exact ⟨_, _, tmpl.Copy, CreateMaterial_found hf hd, heapDeref_new _ _, hk, by simp [hk]⟩

/-- C8, the claim as stated fails: in the library built by the constructor (sample
environment), `CreateCustomMaterial(nullptr)` and `CreatePostProcessingMaterial(nullptr)`
both return the non-null address 8 and leave `m_Materials` equal to `[8]`, where it
was empty before. -/
theorem Create_null_shader_not_noop :
    sampleLib.m_Materials = [] ∧
    (∃ lib1, sampleLib.CreateCustomMaterial sampleEnv nullptr = .ok (8, lib1) ∧
      lib1.m_Materials = [8]) ∧
    (∃ lib1, sampleLib.CreatePostProcessingMaterial sampleEnv nullptr = .ok (8, lib1) ∧
      lib1.m_Materials = [8]) :=
  ⟨rfl, ⟨_, rfl, rfl⟩, ⟨_, rfl, rfl⟩⟩

/-- C8, amended: in every library state, `CreateCustomMaterial` and
`CreatePostProcessingMaterial` called with a null shader succeed like with any other
shader: they return a non-null pointer to a new instance that wraps the null shader,
with `Kind` `Custom` and `PostProcess` respectively, and append that pointer to
`m_Materials`. -/
theorem Create_null_shader (env : Env) (lib : MaterialLibrary) :
    (∃ (p : Ptr) (lib1 : MaterialLibrary) (inst : Material),
      lib.CreateCustomMaterial env nullptr = .ok (p, lib1) ∧ p ≠ nullptr ∧
      lib1.m_Materials = lib.m_Materials ++ [p] ∧ heapDeref lib1.heap p = some inst ∧
      inst.m_Shader = nullptr ∧ inst.Kind = .MATERIAL_CUSTOM) ∧
    (∃ (p : Ptr) (lib1 : MaterialLibrary) (inst : Material),
      lib.CreatePostProcessingMaterial env nullptr = .ok (p, lib1) ∧ p ≠ nullptr ∧
      lib1.m_Materials = lib.m_Materials ++ [p] ∧ heapDeref lib1.heap p = some inst ∧
      inst.m_Shader = nullptr ∧ inst.Kind = .MATERIAL_POST_PROCESS) :=
  ⟨⟨_, _, _, CreateCustomMaterial_eq env lib nullptr, by simp [nullptr], rfl,
      heapDeref_new _ _, rfl, rfl⟩,
    ⟨_, _, _, CreatePostProcessingMaterial_eq env lib nullptr, by simp [nullptr], rfl,
      heapDeref_new _ _, rfl, rfl⟩⟩

theorem insertBackToFront_perm (c : RenderCommand) (l : List RenderCommand) :
    (insertBackToFront c l).Perm (c :: l) := by
  induction l with
  | nil => simp [insertBackToFront]
  | cons d rest ih =>
    by_cases hcd : c.depth < d.depth
    · simp only [insertBackToFront, hcd, if_true]
      exact (List.Perm.cons d ih).trans (List.Perm.swap c d rest)
    · simp only [insertBackToFront, hcd, if_false]
      exact List.Perm.refl _

theorem insertBackToFront_sorted (c : RenderCommand) (l : List RenderCommand)
    (hl : l.Pairwise (fun a b => b.depth ≤ a.depth)) :
    (insertBackToFront c l).Pairwise (fun a b => b.depth ≤ a.depth) := by
  induction l with
  | nil => simp [insertBackToFront]
  | cons d rest ih =>
    rw [List.pairwise_cons] at hl
    by_cases hcd : c.depth < d.depth
    · simp only [insertBackToFront, hcd, if_true]
      rw [List.pairwise_cons]
      refine ⟨?_, ih hl.2⟩
      intro b hb
      rcases (List.Perm.mem_iff (insertBackToFront_perm c rest)).1 hb with hb | hb
      · exact le_of_lt hcd
      · exact hl.1 b (by assumption)
    · simp only [insertBackToFront, hcd, if_false]
      have hdc : d.depth ≤ c.depth := not_lt.1 hcd
      rw [List.pairwise_cons, List.pairwise_cons]
      refine ⟨?_, hl⟩
      intro b hb
      rcases List.mem_cons.1 hb with rfl | hb
      · exact hdc
      · exact le_trans (hl.1 b hb) hdc

theorem insertBackToFront_filter (c : RenderCommand) (l : List RenderCommand) (x : ℚ) :
    (insertBackToFront c l).filter (fun a => decide (a.depth = x)) =
      (c :: l).filter (fun a => decide (a.depth = x)) := by
  induction l with
  | nil => simp [insertBackToFront]
  | cons d rest ih =>
    by_cases hcd : c.depth < d.depth
    · simp only [insertBackToFront, hcd, if_true]
      by_cases hc : c.depth = x
      · have hd : ¬ d.depth = x := fun e => by rw [hc, e] at hcd; exact lt_irrefl _ hcd
        simp only [List.filter_cons, hd, decide_False, Bool.false_eq_true, if_false] at ih ⊢
        exact ih
      · simp only [List.filter_cons, hc, decide_False, Bool.false_eq_true, if_false] at ih ⊢
        rw [ih]
    · simp only [insertBackToFront, hcd, if_false]

theorem sortBackToFront_perm (l : List RenderCommand) : (sortBackToFront l).Perm l := by
  induction l with
  | nil => simp [sortBackToFront]
  | cons c rest ih =>
    exact (insertBackToFront_perm c _).trans (List.Perm.cons c ih)

theorem sortBackToFront_sorted (l : List RenderCommand) :
    (sortBackToFront l).Pairwise (fun a b => b.depth ≤ a.depth) := by
  induction l with
  | nil => simp [sortBackToFront]
  | cons c rest ih => exact insertBackToFront_sorted c _ ih

theorem sortBackToFront_stable (l : List RenderCommand) (x : ℚ) :
    (sortBackToFront l).filter (fun a => decide (a.depth = x)) =
      l.filter (fun a => decide (a.depth = x)) := by
  induction l with
  | nil => simp [sortBackToFront]
  | cons c rest ih =>
    simp only [sortBackToFront]
    rw [insertBackToFront_filter, List.filter_cons, List.filter_cons, ih]

theorem pushAll_custom (cs : List RenderCommand) (buf : CommandBuffer) :
    (buf.pushAll cs).custom =
      buf.custom ++ cs.filter (fun c => decide (c.Kind = .MATERIAL_CUSTOM)) := by
  induction cs generalizing buf with
  | nil => simp [CommandBuffer.pushAll]
  | cons c rest ih =>
    have hstep : (buf.pushAll (c :: rest)) = (buf.PushRender c).pushAll rest := rfl
    rw [hstep, ih]
    cases hk : c.Kind <;> simp [CommandBuffer.PushRender, drawBucket, hk]

/-- C9: for every sequence of commands pushed in one frame, the forward pass of
`RenderPushedCommands` draws exactly the pushed custom-bucket commands, in
non-increasing camera-space depth (back to front), and the commands of any one
depth in their submission order; in particular custom commands of depths 1, 5, 3
pushed in that order are drawn in the order 5, 3, 1. -/
theorem RenderPushedCommands_back_to_front (cs : List RenderCommand) :
    ((CommandBuffer.empty.pushAll cs).RenderPushedCommands).1.Perm
        (cs.filter (fun c => decide (c.Kind = .MATERIAL_CUSTOM))) ∧
      ((CommandBuffer.empty.pushAll cs).RenderPushedCommands).1.Pairwise
        (fun a b => b.depth ≤ a.depth) ∧
      (∀ x : ℚ,
        ((CommandBuffer.empty.pushAll cs).RenderPushedCommands).1.filter
            (fun a => decide (a.depth = x)) =
          (cs.filter (fun c => decide (c.Kind = .MATERIAL_CUSTOM))).filter
            (fun a => decide (a.depth = x))) ∧
      (∀ m1 m2 m3 t1 t2 t3 : Ptr,
        ((CommandBuffer.empty.pushAll
            [⟨m1, t1, .MATERIAL_CUSTOM, 1⟩, ⟨m2, t2, .MATERIAL_CUSTOM, 5⟩,
              ⟨m3, t3, .MATERIAL_CUSTOM, 3⟩]).RenderPushedCommands).1 =
          [⟨m2, t2, .MATERIAL_CUSTOM, 5⟩, ⟨m3, t3, .MATERIAL_CUSTOM, 3⟩,
            ⟨m1, t1, .MATERIAL_CUSTOM, 1⟩]) := by
  have hc : (CommandBuffer.empty.pushAll cs).custom =
      cs.filter (fun c => decide (c.Kind = .MATERIAL_CUSTOM)) := by
    rw [pushAll_custom]
    simp [CommandBuffer.empty]
  refine ⟨?_, ?_, ?_, ?_⟩
  · simp only [CommandBuffer.RenderPushedCommands, hc]
    exact sortBackToFront_perm _
  · simp only [CommandBuffer.RenderPushedCommands]
    exact sortBackToFront_sorted _
  · intro x
    simp only [CommandBuffer.RenderPushedCommands, hc]
    exact sortBackToFront_stable _ x
  · intro m1 m2 m3 t1 t2 t3
    simp only [CommandBuffer.RenderPushedCommands, pushAll_custom, CommandBuffer.empty]
    norm_num [sortBackToFront, insertBackToFront]


/-! ## The theorems at a concrete library -/

theorem CreateMaterial_default_isolated_witness :
    Reachable sampleEnv sampleLib ∧
    ∃ (tp p1 p2 : Ptr) (lib1 lib2 : MaterialLibrary) (tmpl : Material),
      mapFind sampleLib.m_DefaultMaterials (sampleEnv.SID "default") = some tp ∧
      heapDeref sampleLib.heap tp = some tmpl ∧
      sampleLib.CreateMaterial sampleEnv "default" = .ok (p1, lib1) ∧
      lib1.CreateMaterial sampleEnv "default" = .ok (p2, lib2) ∧
      p1 ≠ nullptr ∧ p2 ≠ nullptr ∧ p1 ≠ p2 ∧ p1 ≠ tp ∧ p2 ≠ tp ∧
      heapDeref lib2.heap p1 = some tmpl.Copy ∧ heapDeref lib2.heap p2 = some tmpl.Copy ∧
      heapDeref lib2.heap tp = some tmpl ∧
      (∀ (name : String) (value : Ptr) (unit : Nat), ∃ lib3,
        lib2.SetTexture p1 name value unit = .ok lib3 ∧
        heapDeref lib3.heap p1 = some (tmpl.Copy.SetTexture name value unit) ∧
        heapDeref lib3.heap p2 = heapDeref lib2.heap p2 ∧
        heapDeref lib3.heap tp = heapDeref lib2.heap tp ∧
        lib3.m_DefaultMaterials = lib2.m_DefaultMaterials) ∧
      (∀ (name : String) (value : Ptr) (unit : Nat), ∃ lib3,
        lib2.SetTexture p2 name value unit = .ok lib3 ∧
        heapDeref lib3.heap p2 = some (tmpl.Copy.SetTexture name value unit) ∧
        heapDeref lib3.heap p1 = heapDeref lib2.heap p1 ∧
        heapDeref lib3.heap tp = heapDeref lib2.heap tp ∧
        lib3.m_DefaultMaterials = lib2.m_DefaultMaterials) :=
  ⟨sampleLib_reachable, CreateMaterial_default_isolated sampleEnv sampleLib sampleLib_reachable⟩

theorem Create_appends_instance_witness :
    Reachable sampleEnv sampleLib ∧
    mapFind sampleLib.m_DefaultMaterials (sampleEnv.SID "alpha blend") = some 3 ∧
    ∃ p lib1, sampleLib.CreateMaterial sampleEnv "alpha blend" = .ok (p, lib1) ∧ p ≠ nullptr ∧
      (heapDeref lib1.heap p).isSome ∧
      lib1.m_Materials = sampleLib.m_Materials ++ [p] ∧
      lib1.m_DefaultMaterials = sampleLib.m_DefaultMaterials ∧
      ∀ q m, heapDeref sampleLib.heap q = some m → heapDeref lib1.heap q = some m :=
  ⟨sampleLib_reachable, rfl,
    (Create_appends_instance sampleEnv sampleLib).1 "alpha blend" 3 sampleLib_reachable rfl⟩

theorem CreateMaterial_clones_template_witness :
    Reachable sampleEnv sampleLib ∧
    "glass" ∈ ["default", "glass", "alpha blend", "alpha discard"] ∧
    ∃ (found p : Ptr) (lib1 : MaterialLibrary) (tmpl inst : Material),
      mapFind sampleLib.m_DefaultMaterials (sampleEnv.SID "glass") = some found ∧
      heapDeref sampleLib.heap found = some tmpl ∧
      sampleLib.CreateMaterial sampleEnv "glass" = .ok (p, lib1) ∧ p ≠ nullptr ∧
      heapDeref lib1.heap p = some inst ∧
      inst.m_Shader = tmpl.m_Shader ∧ inst.Kind = tmpl.Kind ∧
      inst.m_SamplerUniforms = tmpl.m_SamplerUniforms ∧
      inst.Blend = tmpl.Blend ∧ inst.Cull = tmpl.Cull ∧ inst.DepthTest = tmpl.DepthTest :=
  ⟨sampleLib_reachable, by decide,
    CreateMaterial_clones_template sampleEnv sampleLib "glass" sampleLib_reachable (by decide)⟩

theorem CreateMaterial_kind_witness :
    Reachable sampleEnv sampleLib ∧
    sampleEnv.SID "default" ∉
      [sampleEnv.SID "glass", sampleEnv.SID "alpha blend", sampleEnv.SID "alpha discard"] ∧
    "alpha discard" ∈ ["glass", "alpha blend", "alpha discard"] ∧
    (∃ (p : Ptr) (lib1 : MaterialLibrary) (inst : Material),
      sampleLib.CreateMaterial sampleEnv "alpha discard" = .ok (p, lib1) ∧
      heapDeref lib1.heap p = some inst ∧ inst.Kind = .MATERIAL_CUSTOM) ∧
    (∃ (p : Ptr) (lib1 : MaterialLibrary) (inst : Material),
      sampleLib.CreateMaterial sampleEnv "default" = .ok (p, lib1) ∧
      heapDeref lib1.heap p = some inst ∧
      inst.Kind = .MATERIAL_DEFAULT ∧ inst.Kind ≠ .MATERIAL_CUSTOM) :=
  ⟨sampleLib_reachable, by decide, by decide,
    (CreateMaterial_kind sampleEnv sampleLib sampleLib_reachable).1 "alpha discard" (by decide),
    (CreateMaterial_kind sampleEnv sampleLib sampleLib_reachable).2 (by decide)⟩

end Cell
